import Mathlib

/-!
# Verification of the fetch-retry orchestration engine

Shallow embedding of the retry engine of `Durden-T/fetch-retry`
(`src/unnamed/part_000`, the current `fetch-retry.js`): the compiled
URL-pattern cache (`getCachedPatterns`), the URL filter
(`shouldApplyRetryLogic`), the backoff calculator (`calculateRetryDelay`)
and the retry orchestrator (`createRetryableFetch`).

Modelling conventions:
- JS numbers are modelled as `ℚ` (the relevant computations are exact);
  attempt counters and HTTP statuses are `ℕ`.
- `Math.random() * 2 - 1` (line 159) is modelled by an explicit jitter
  parameter `u ∈ [-1, 1]`.
- The asynchronous loop is sequentialised: the transport is a function
  from the attempt index to the result that the awaited fetch produced on
  that attempt (a response, or a thrown error).  Wall-clock waiting in
  `handleRetry` does not influence control flow and is not modelled.
- The external abort signal is modelled through two samplings per
  iteration: `sigTop a` is the value of `originalSignal.aborted` observed
  at the top of the loop for attempt `a` (lines 220/232, which read the
  same sequential value), and `sigCatch a` is the value observed inside
  the `catch` block of attempt `a` (line 374).
- The module-level mutable cache (`cachedPatterns`, `cachedPatternsVersion`,
  lines 3-4) is explicit state of type `CacheState`.
- JS regex compilation validity and matching are abstract parameters
  (`validRegex`, `rmatch`); a compiled `RegExp` is represented by its
  source string.
-/

/-- A JavaScript error value, reduced to the two fields the engine
inspects: `name` and `message` (lines 370-383). -/
structure JsError where
  name : String
  msg : String
deriving DecidableEq, Repr

/-- The `error` field of a parsed JSON response body (lines 290-300).
`absent` covers: body not parseable, no `error` field, or `error` being
`undefined`/`null`.  `obj msg stringified` is an object-typed `error`:
`msg = some m` when the object has a string-typed `message` property
(possibly empty), and `stringified` is `JSON.stringify` of the object.
`other` is a non-string non-object `error` (number, boolean), for which
the code leaves `errorMessage` null. -/
inductive ErrorField where
  | absent
  | str (s : String)
  | obj (message : Option String) (stringified : String)
  | other
deriving DecidableEq, Repr

/-- An HTTP response, reduced to the fields the engine inspects.
`retryAfter = some n` models a `Retry-After` header that is present and
whose `parseInt(·, 10)` is the integer `n` (line 144); a missing header,
or one parsing to `NaN`, is `none`.  `contentTypeJson` models
`content-type` containing `application/json` (line 284). -/
structure Response where
  status : ℕ
  statusText : String
  retryAfter : Option ℤ
  contentTypeJson : Bool
  errorField : ErrorField
deriving DecidableEq, Repr

/-- Model of `Response.ok` of the fetch API: status in the range 200-299. -/
def Response.ok (r : Response) : Bool :=
  decide (200 ≤ r.status ∧ r.status ≤ 299)

/-- The settings object consumed by the engine.  Numeric sliders are `ℚ`
(JS numbers); `urlFilterMode` is `none` when unset.  `minRetryDelay` is
declared in the settings schema (`src/unnamed/part_001`, lines 75-84) and
carried here so that claims about it can be stated. -/
structure Settings where
  enabled : Bool
  maxRetries : ℕ
  retryDelay : ℚ
  rateLimitDelay : ℚ
  minRetryDelay : ℚ
  enableThinkingTimeout : Bool
  thinkingTimeout : ℚ
  checkResponseErrorField : Bool
  urlPatterns : List String
  urlFilterMode : Option String
  settingsVersion : ℤ

/-! ## Pattern cache and URL filter (lines 3-74) -/

/-- The module-level cache (lines 3-4): `patterns = none` models
`cachedPatterns === null`; the initial version is `-1`. -/
structure CacheState where
  patterns : Option (List String)
  version : ℤ
deriving DecidableEq, Repr

/-- The initial module state (lines 3-4). -/
def initialCache : CacheState := ⟨none, -1⟩

/-- The dangerous-quantifier screen (line 19): the fixed regex
`(\+\*|\*\+|\{\d{3,}\}|\+{3,}|\*{3,})` tested against the pattern.  It
matches iff the pattern contains `+*`, `*+`, three consecutive `+`,
three consecutive `*`, or `{` followed by at least three digits followed
by `}` (maximal digit run, as regex backtracking yields). -/
def dangerousFrom : List Char → Bool
  | [] => false
  | '+' :: '*' :: _ => true
  | '*' :: '+' :: _ => true
  | '+' :: '+' :: '+' :: _ => true
  | '*' :: '*' :: '*' :: _ => true
  | '{' :: rest =>
      ((rest.takeWhile Char.isDigit).length ≥ 3 ∧
        (rest.dropWhile Char.isDigit).head? = some '}' : Bool)
      || dangerousFrom rest
  | _ :: rest => dangerousFrom rest

/-- Whether a pattern trips the catastrophic-backtracking screen. -/
def hasDangerousQuantifier (p : String) : Bool :=
  dangerousFrom p.toList

/-- The compile loop of `getCachedPatterns` (lines 11-28): keep a pattern
iff it is at most 500 characters, passes the quantifier screen, and
`new RegExp(pattern)` does not throw (`validRegex`).  A compiled pattern
is represented by its source string. -/
def compilePatterns (validRegex : String → Bool) (urlPatterns : List String) :
    List String :=
  urlPatterns.filter fun p =>
    decide (p.length ≤ 500) && !hasDangerousQuantifier p && validRegex p

/-- Model of `getCachedPatterns` (lines 6-35) with the module state made explicit:
returns the compiled patterns and the new module state.  The cache hits
iff the stored version equals `settingsVersion` and the stored pattern
set is non-null; the incoming `urlPatterns` are not part of the key. -/
def getCachedPatterns (validRegex : String → Bool) (st : CacheState)
    (urlPatterns : List String) (settingsVersion : ℤ) :
    List String × CacheState :=
  if st.version = settingsVersion ∧ st.patterns.isSome then
    (st.patterns.getD [], st)
  else
    let compiled := compilePatterns validRegex urlPatterns
    (compiled, ⟨some compiled, settingsVersion⟩)

/-- Model of `shouldApplyRetryLogic` (lines 37-74) with explicit cache state.
`rmatch pat url` models `new RegExp(pat).test(url)`.  With an empty (or
invalid-only) pattern list the filter returns `false` exactly when
`urlFilterMode === 'include'`; with compiled patterns it returns the
match for `include`, the non-match for `exclude`, and `true` for any
other mode. -/
def shouldApplyRetryLogic (validRegex : String → Bool)
    (rmatch : String → String → Bool) (url : String) (s : Settings)
    (st : CacheState) : Bool × CacheState :=
  if s.urlPatterns.isEmpty then
    (decide (s.urlFilterMode ≠ some "include"), st)
  else
    let res := getCachedPatterns validRegex st s.urlPatterns s.settingsVersion
    let compiled := res.1
    let st1 := res.2
    if compiled.isEmpty then
      (decide (s.urlFilterMode ≠ some "include"), st1)
    else
      let anyMatch := compiled.any fun p => rmatch p url
      if s.urlFilterMode = some "include" then (anyMatch, st1)
      else if s.urlFilterMode = some "exclude" then (!anyMatch, st1)
      else (true, st1)

/-! ## Backoff calculator (lines 137-165) -/

/-- The delay accumulated by `calculateRetryDelay` before the jitter is
applied (lines 139-157): start at 0; if a `Retry-After` header parses,
take the max with `seconds * 1000` clamped to 30000; if the response has
status 429, take the max with `rateLimitDelay * 1.5 ^ attempt`; always
take the max with `retryDelay * 1.2 ^ attempt`; finally clamp to 30000. -/
def preJitterDelay (response : Option Response) (attempt : ℕ)
    (s : Settings) : ℚ :=
  let d0 : ℚ := 0
  let d1 : ℚ :=
    match response with
    | some r =>
      match r.retryAfter with
      | some sec => max d0 (min ((sec : ℚ) * 1000) 30000)
      | none => d0
    | none => d0
  let d2 : ℚ :=
    match response with
    | some r =>
      if r.status = 429 then max d1 (s.rateLimitDelay * (3 / 2 : ℚ) ^ attempt)
      else d1
    | none => d1
  let d3 : ℚ := max d2 (s.retryDelay * (6 / 5 : ℚ) ^ attempt)
  min d3 30000

/-- Model of `calculateRetryDelay` (lines 137-165).  `u` models
`Math.random() * 2 - 1 ∈ [-1, 1]` (line 159): the returned delay is
`max 0 (d + d * 0.1 * u)` where `d` is the pre-jitter delay. -/
def calculateRetryDelay (response : Option Response) (attempt : ℕ)
    (s : Settings) (u : ℚ) : ℚ :=
  let d := preJitterDelay response attempt s
  max 0 (d + d * (1 / 10 : ℚ) * u)

/-! ## Failure classification and the retry loop (lines 178-412) -/

/-- The error thrown for a rate-limited response (lines 333/337). -/
def rateLimitedError (r : Response) : JsError :=
  ⟨"Error", "Rate limited (429): " ++ r.statusText⟩

/-- The error thrown for a server error response (lines 343/346). -/
def serverError (r : Response) : JsError :=
  ⟨"Error", "Server error (" ++ toString r.status ++ "): " ++ r.statusText⟩

/-- The error thrown for a client error response (lines 352/355). -/
def clientError (r : Response) : JsError :=
  ⟨"Error", "Client error (" ++ toString r.status ++ "): " ++ r.statusText⟩

/-- The error thrown for a response outside every handled status branch
(line 361): `new Error('HTTP <status>: <statusText>')`. -/
def httpError (r : Response) : JsError :=
  ⟨"Error", "HTTP " ++ toString r.status ++ ": " ++ r.statusText⟩

/-- The error recorded for an ok response whose body carries an error
field (line 305): `new Error('Response error: <message>')`. -/
def embeddedError (m : String) : JsError :=
  ⟨"Error", "Response error: " ++ m⟩

/-- The `DOMException('Request aborted by user', 'AbortError')` thrown at
the loop-top abort checks (lines 222/234). -/
def loopAbortError : JsError :=
  ⟨"AbortError", "Request aborted by user"⟩

/-- Model of `errorMessage` as computed from the body's `error` field
(lines 288-300): a string-typed `error` is taken iff longer than
`MIN_ERROR_LENGTH = 2`; an object-typed `error` contributes its
(truthy, string-typed) `message`, else its `JSON.stringify`. -/
def errorMessageOf : ErrorField → Option String
  | .absent => none
  | .other => none
  | .str s => if s.length > 2 then some s else none
  | .obj message stringified =>
      match message with
      | some m => if m ≠ "" then some m else some stringified
      | none => some stringified

/-- The error-field check on an ok response (lines 277-312): active only
when `checkResponseErrorField` is set and the content type is JSON;
yields `some m` iff the computed `errorMessage` is truthy and longer
than 2 characters, in which case the attempt is treated as failed with
`embeddedError m`. -/
def responseErrorMsg (s : Settings) (r : Response) : Option String :=
  if s.checkResponseErrorField ∧ r.contentTypeJson then
    match errorMessageOf r.errorField with
    | some m => if m.length > 2 then some m else none
    | none => none
  else none

/-- What the awaited fetch of one attempt produced: a resolved response,
or a thrown error (rejection, timeout race, abort). -/
inductive TransportResult where
  | resp (r : Response)
  | thrown (e : JsError)
deriving DecidableEq, Repr

/-- The observable outcome of the wrapped call: a returned response or a
thrown error. -/
inductive Outcome where
  | ret (r : Response)
  | thrown (e : JsError)
deriving DecidableEq, Repr

/-- The user-abort test of the catch block (line 374): the caught error
has name `AbortError` and either the external signal reads aborted or
the message is one of the two internally stamped abort messages. -/
def isUserAbort (sigCatchNow : Bool) (e : JsError) : Bool :=
  e.name = "AbortError" &&
    (sigCatchNow || e.msg = "User aborted" || e.msg = "Request aborted by user")

/-- What one loop iteration decides to do with the attempt's transport
result, lines 270-399:
- `success r`: return the response to the caller (line 324);
- `userThrow e`: rethrow immediately, skipping retry (line 376);
- `retryable retrySet breakErr`: a retryable failure; on retry,
  `lastError` is overwritten with `retrySet` when it is `some` and kept
  otherwise (the 429/5xx/4xx branches pass a fresh error to `handleRetry`
  without storing it); at the attempt bound the loop breaks and
  `breakErr` is the error that `lastError` holds at the final throw. -/
inductive StepAction where
  | success (r : Response)
  | userThrow (e : JsError)
  | retryable (retrySet : Option JsError) (breakErr : JsError)
deriving DecidableEq, Repr

/-- The catch block (lines 362-394): `lastError := err`; a user abort is
rethrown; every other error (timeout, abort of the internal controller,
network failure, the rethrown `HTTP <status>` error) is retryable. -/
def catchClassify (sigCatchNow : Bool) (e : JsError) : StepAction :=
  if isUserAbort sigCatchNow e then .userThrow e
  else .retryable (some e) e

/-- Classification of one attempt's transport result (lines 270-394):
ok responses are returned unless the error-field check fires; 429, 5xx
and remaining 4xx responses are retryable with their dedicated errors;
any other status is converted to a thrown `HTTP <status>` error handled
by the catch block, as is a transport throw. -/
def stepAction (s : Settings) (sigCatchNow : Bool) :
    TransportResult → StepAction
  | .resp r =>
    if r.ok then
      match responseErrorMsg s r with
      | some m => .retryable (some (embeddedError m)) (embeddedError m)
      | none => .success r
    else if r.status = 429 then .retryable none (rateLimitedError r)
    else if 500 ≤ r.status then .retryable none (serverError r)
    else if 400 ≤ r.status then .retryable none (clientError r)
    else catchClassify sigCatchNow (httpError r)
  | .thrown e => catchClassify sigCatchNow e

/-- The throw after the loop (line 404): `throw lastError`.  All paths
that leave the loop without returning or throwing set `lastError`, so
the `none` case is unreachable from the loop entry; it models JS
`throw undefined`. -/
def finalThrow : Option JsError → Outcome
  | some e => .thrown e
  | none => .thrown ⟨"undefined", "undefined"⟩

/-- The retry loop (lines 218-404), sequentialised.  `fuel` is the
structural recursion measure; the loop is entered with
`fuel = maxRetries + 1` and every iteration increments `attempt` by
exactly one, so the guard `attempt ≤ maxRetries` (line 218) and the fuel
agree.  Returns the outcome together with the list of attempt indices at
which the transport was invoked. -/
def runLoop (s : Settings) (tr : ℕ → TransportResult)
    (sigTop sigCatch : ℕ → Bool) :
    ℕ → ℕ → Option JsError → Outcome × List ℕ
  | 0, _, lastError => (finalThrow lastError, [])
  | fuel + 1, attempt, lastError =>
    if s.maxRetries < attempt then (finalThrow lastError, [])
    else if sigTop attempt then (.thrown loopAbortError, [])
    else
      match stepAction s (sigCatch attempt) (tr attempt) with
      | .success r => (.ret r, [attempt])
      | .userThrow e => (.thrown e, [attempt])
      | .retryable retrySet breakErr =>
        if attempt < s.maxRetries then
          let next := runLoop s tr sigTop sigCatch fuel (attempt + 1)
            (match retrySet with | some e => some e | none => lastError)
          (next.1, attempt :: next.2)
        else (.thrown breakErr, [attempt])

/-- The loop as entered by the wrapper: attempt 0, `lastError`
uninitialised, fuel matching the guard. -/
def runRetryLoop (s : Settings) (tr : ℕ → TransportResult)
    (sigTop sigCatch : ℕ → Bool) : Outcome × List ℕ :=
  runLoop s tr sigTop sigCatch (s.maxRetries + 1) 0 none

/-- Lift a bypass call of the original fetch to an outcome. -/
def outcomeOf : TransportResult → Outcome
  | .resp r => .ret r
  | .thrown e => .thrown e

/-- Result of the wrapped call: its outcome, the attempt indices at
which the retry loop invoked the transport, and whether the wrapper
bypassed the retry machinery and delegated a single direct call. -/
structure WrapResult where
  outcome : Outcome
  loopCalls : List ℕ
  bypassed : Bool
deriving DecidableEq, Repr

/-- The wrapper returned by `createRetryableFetch` (lines 178-412):
bypass when disabled (line 180), when the URL filter declines (line 188)
or when the external signal is already aborted before the first attempt
(line 194) — each bypass delegates one direct call to the original
fetch, modelled by `passthrough`; otherwise run the retry loop. -/
def createRetryableFetch (validRegex : String → Bool)
    (rmatch : String → String → Bool) (s : Settings) (st : CacheState)
    (url : String) (preAborted : Bool) (passthrough : TransportResult)
    (tr : ℕ → TransportResult) (sigTop sigCatch : ℕ → Bool) : WrapResult :=
  if !s.enabled then ⟨outcomeOf passthrough, [], true⟩
  else if !(shouldApplyRetryLogic validRegex rmatch url s st).1 then
    ⟨outcomeOf passthrough, [], true⟩
  else if preAborted then ⟨outcomeOf passthrough, [], true⟩
  else
    let res := runRetryLoop s tr sigTop sigCatch
    ⟨res.1, res.2, false⟩

/-! ## Shared concrete instances for witnesses and counterexamples -/

/-- Settings with the schema defaults of `src/unnamed/part_001` (fields:
enabled, maxRetries, retryDelay, rateLimitDelay, minRetryDelay,
enableThinkingTimeout, thinkingTimeout, checkResponseErrorField,
urlPatterns, urlFilterMode, settingsVersion). -/
def defaultSettings : Settings :=
  ⟨true, 5, 5000, 5000, 0, true, 60000, true, [], none, 0⟩

/-- Settings with the minimum slider delays and a positive
`minRetryDelay` of 1000 ms. -/
def lowDelaySettings : Settings :=
  ⟨true, 5, 100, 1000, 1000, false, 60000, false, [], none, 0⟩

/-- Settings with the maximum base retry delay of 60000 ms. -/
def highDelaySettings : Settings :=
  ⟨true, 5, 60000, 1000, 0, false, 60000, false, [], none, 0⟩

/-- A 200 response carrying a parsed `Retry-After: 2` header. -/
def retryAfter2Response : Response :=
  ⟨200, "OK", some 2, false, .absent⟩

/-! ## Claims about the backoff calculator -/

/-- Claim C3, counterexample.  The claim states that `calculateRetryDelay`
clamps to 30000 ms and then floors to `minRetryDelayMs`, so the final
delay is never above 30000 ms nor below `minRetryDelayMs`.  Both bounds
fail on the code: with `retryDelay = 100`, `minRetryDelay = 1000` and
zero jitter the attempt-0 delay is 100 ms, below the 1000 ms floor the
claim asserts; and with `retryDelay = 60000` and jitter factor `u = 1`
the attempt-0 delay is 33000 ms, above the 30000 ms ceiling, because the
jitter of line 159 is applied after the clamp of line 157. -/
theorem calculateRetryDelay_ignores_minRetryDelay :
    calculateRetryDelay none 0 lowDelaySettings 0 = 100 ∧
    calculateRetryDelay none 0 lowDelaySettings 0 <
      lowDelaySettings.minRetryDelay ∧
    calculateRetryDelay none 0 highDelaySettings 1 = 33000 ∧
    30000 < calculateRetryDelay none 0 highDelaySettings 1 := by
  refine ⟨?_, ?_, ?_, ?_⟩ <;>
    norm_num [calculateRetryDelay, preJitterDelay, lowDelaySettings,
      highDelaySettings]

/-- Claim C3, amended.  The pre-jitter delay of `calculateRetryDelay` lies
in `[0, 30000]`; `minRetryDelayMs` is never consulted (there is no floor
step); the returned post-jitter delay lies in `[0, 33000]` for any
jitter factor in `[-1, 1]`. -/
theorem calculateRetryDelay_clamp_bounds (resp : Option Response)
    (attempt : ℕ) (s : Settings) (u : ℚ) (hrd : 0 ≤ s.retryDelay)
    (hu1 : -1 ≤ u) (hu2 : u ≤ 1) :
    0 ≤ preJitterDelay resp attempt s ∧
    preJitterDelay resp attempt s ≤ 30000 ∧
    0 ≤ calculateRetryDelay resp attempt s u ∧
    calculateRetryDelay resp attempt s u ≤ 33000 := by
  have hpow : (0 : ℚ) ≤ s.retryDelay * (6 / 5 : ℚ) ^ attempt :=
    mul_nonneg hrd (by positivity)
  have h0 : 0 ≤ preJitterDelay resp attempt s := by
    unfold preJitterDelay
    refine le_min ?_ (by norm_num)
    exact le_trans hpow (le_max_right _ _)
  have h30 : preJitterDelay resp attempt s ≤ 30000 := by
    unfold preJitterDelay
    exact min_le_right _ _
  refine ⟨h0, h30, ?_, ?_⟩
  · exact le_max_left _ _
  · unfold calculateRetryDelay
    refine max_le (by norm_num) ?_
    nlinarith [h0, h30]

/-- Witness for the amended C3: the bounds evaluated on the default
settings at attempt 0 with zero jitter. -/
theorem calculateRetryDelay_clamp_bounds_witness :
    0 ≤ preJitterDelay none 0 defaultSettings ∧
    preJitterDelay none 0 defaultSettings ≤ 30000 ∧
    0 ≤ calculateRetryDelay none 0 defaultSettings 0 ∧
    calculateRetryDelay none 0 defaultSettings 0 ≤ 33000 :=
  calculateRetryDelay_clamp_bounds none 0 defaultSettings 0
    (by norm_num [defaultSettings]) (by norm_num) (by norm_num)

/-- Claim C4, counterexample.  The claim states that a 200 response with
`Retry-After: 2` forces a computed retry delay of at least 2000 ms.  The
returned delay includes the ±10% jitter applied after the header lower
bound, so with jitter factor `u = -1` the attempt-0 delay is 1800 ms,
below 2000 ms. -/
theorem retryAfter_delay_below_2000 :
    calculateRetryDelay (some retryAfter2Response) 0 lowDelaySettings (-1)
      = 1800 ∧
    calculateRetryDelay (some retryAfter2Response) 0 lowDelaySettings (-1)
      < 2000 := by
  constructor <;>
    norm_num [calculateRetryDelay, preJitterDelay, lowDelaySettings,
      retryAfter2Response]

/-- Claim C4, amended.  A 200 response whose `Retry-After` header parses to
2 forces a pre-jitter delay of at least 2000 ms for every attempt number
and every config: the header seconds are converted to ms, capped at
30000 ms, and taken as a lower bound on the running delay.  The returned
delay, after the ±10% jitter, is at least 1800 ms. -/
theorem retryAfter_lower_bound (r : Response) (attempt : ℕ) (s : Settings)
    (u : ℚ) (hra : r.retryAfter = some 2) (hu : -1 ≤ u) :
    2000 ≤ preJitterDelay (some r) attempt s ∧
    1800 ≤ calculateRetryDelay (some r) attempt s u := by
  have h2000 : 2000 ≤ preJitterDelay (some r) attempt s := by
    unfold preJitterDelay
    simp only [hra]
    refine le_min ?_ (by norm_num)
    refine le_trans ?_ (le_max_left _ _)
    by_cases h429 : r.status = 429
    · simp only [h429, if_pos rfl]
      refine le_trans ?_ (le_max_left _ _)
      norm_num
    · rw [if_neg h429]
      norm_num
  refine ⟨h2000, ?_⟩
  unfold calculateRetryDelay
  refine le_trans ?_ (le_max_right _ _)
  nlinarith [h2000]

/-- Witness for the amended C4: the bound evaluated at attempt 3 on the
default settings with jitter factor `-1/2`. -/
theorem retryAfter_lower_bound_witness :
    2000 ≤ preJitterDelay (some retryAfter2Response) 3 defaultSettings ∧
    1800 ≤ calculateRetryDelay (some retryAfter2Response) 3 defaultSettings
      (-1 / 2) :=
  retryAfter_lower_bound retryAfter2Response 3 defaultSettings (-1 / 2)
    rfl (by norm_num)

/-- Claim C6.  For a fixed config (with nonnegative delay sliders) and a
fixed response, the pre-jitter delay computed by `calculateRetryDelay`
is monotonically non-decreasing in the attempt number. -/
theorem preJitterDelay_monotone (resp : Option Response) (s : Settings)
    (a b : ℕ) (hrd : 0 ≤ s.retryDelay) (hrl : 0 ≤ s.rateLimitDelay)
    (hab : a ≤ b) :
    preJitterDelay resp a s ≤ preJitterDelay resp b s := by
  have h65 : s.retryDelay * (6 / 5 : ℚ) ^ a ≤ s.retryDelay * (6 / 5 : ℚ) ^ b :=
    mul_le_mul_of_nonneg_left (pow_le_pow_right₀ (by norm_num) hab) hrd
  have h32 : s.rateLimitDelay * (3 / 2 : ℚ) ^ a ≤
      s.rateLimitDelay * (3 / 2 : ℚ) ^ b :=
    mul_le_mul_of_nonneg_left (pow_le_pow_right₀ (by norm_num) hab) hrl
  unfold preJitterDelay
  cases resp with
  | none => exact min_le_min (max_le_max le_rfl h65) le_rfl
  | some r =>
    by_cases h429 : r.status = 429
    · simp only [h429, if_pos rfl]
      exact min_le_min (max_le_max (max_le_max le_rfl h32) h65) le_rfl
    · simp only [if_neg h429]
      exact min_le_min (max_le_max le_rfl h65) le_rfl

/-- Witness for C6: monotonicity evaluated between attempts 1 and 4 on
the default settings with no response at hand. -/
theorem preJitterDelay_monotone_witness :
    preJitterDelay none 1 defaultSettings ≤ preJitterDelay none 4 defaultSettings :=
  preJitterDelay_monotone none defaultSettings 1 4
    (by norm_num [defaultSettings]) (by norm_num [defaultSettings])
    (by norm_num)

/-! ## Claims about the URL filter and the pattern cache -/

/-- A settings value with an empty pattern list in `include` mode. -/
def includeModeSettings : Settings :=
  ⟨true, 5, 5000, 5000, 0, true, 60000, true, [], some "include", 0⟩

/-- Claim C7.  With an empty URL pattern list the filter applies retry
logic to every URL exactly when the filter mode is not `include`
(`exclude`, unset, or anything else), and in `include` mode every call
is bypassed by the wrapper: it delegates a single direct call to the
original fetch and runs no retry loop. -/
theorem emptyPatterns_filter (validRegex : String → Bool)
    (rmatch : String → String → Bool) (url : String) (s : Settings)
    (st : CacheState) (hempty : s.urlPatterns = []) :
    (shouldApplyRetryLogic validRegex rmatch url s st).1 =
      decide (s.urlFilterMode ≠ some "include") ∧
    (∀ preAborted passthrough tr sigTop sigCatch,
      s.urlFilterMode = some "include" → s.enabled = true →
      createRetryableFetch validRegex rmatch s st url preAborted
          passthrough tr sigTop sigCatch =
        ⟨outcomeOf passthrough, [], true⟩) := by
  have hfil : (shouldApplyRetryLogic validRegex rmatch url s st).1 =
      decide (s.urlFilterMode ≠ some "include") := by
    simp [shouldApplyRetryLogic, hempty]
  refine ⟨hfil, ?_⟩
  intro preAborted passthrough tr sigTop sigCatch hmode hen
  rw [createRetryableFetch]
  rw [hfil]
  simp [hen, hmode]

/-- Witness for C7: with the empty-list `include` settings the filter
declines `https://host/v1/chat/completions` and the wrapper delegates a
passthrough call. -/
theorem emptyPatterns_filter_witness :
    (shouldApplyRetryLogic (fun _ => true) (fun _ _ => true)
        "https://host/v1/chat/completions" includeModeSettings
        initialCache).1 = false ∧
    createRetryableFetch (fun _ => true) (fun _ _ => true)
        includeModeSettings initialCache "https://host/v1/chat/completions"
        false (.resp retryAfter2Response) (fun _ => .resp retryAfter2Response)
        (fun _ => false) (fun _ => false) =
      ⟨.ret retryAfter2Response, [], true⟩ := by
  have h := emptyPatterns_filter (fun _ => true) (fun _ _ => true)
    "https://host/v1/chat/completions" includeModeSettings initialCache rfl
  exact ⟨by rw [h.1]; rfl,
    h.2 false (.resp retryAfter2Response) (fun _ => .resp retryAfter2Response)
      (fun _ => false) (fun _ => false) rfl rfl⟩

/-- Claim C9, counterexample.  The claim states that the compiled-pattern
cache is rebuilt whenever the pattern list or the version counter
changes.  The cache key is the version alone (line 7): after compiling
`["a"]` at version 0, a second invocation with the changed list `["b"]`
and the unchanged version 0 returns the stale compiled set for `["a"]`
instead of recompiling (which would yield `["b"]`), and leaves the cache
state untouched. -/
theorem getCachedPatterns_stale_on_list_change :
    (getCachedPatterns (fun _ => true)
        (getCachedPatterns (fun _ => true) initialCache ["a"] 0).2
        ["b"] 0).1 = ["a"] ∧
    compilePatterns (fun _ => true) ["b"] = ["b"] ∧
    (["a"] : List String) ≠ ["b"] := by
  refine ⟨?_, ?_, by decide⟩ <;> rfl

/-- Claim C9, amended.  Across two successive invocations the cache is
reused exactly when the version counter is unchanged — regardless of the
pattern list — and recompiled exactly when the version differs: after
any first invocation, a second invocation with the same version returns
the first invocation's compiled set and state unchanged, and a second
invocation with a different version compiles its own pattern list
afresh. -/
theorem getCachedPatterns_version_keyed (validRegex : String → Bool)
    (ps1 ps2 : List String) (v1 v2 : ℤ) (st0 : CacheState) :
    (v2 = v1 →
      getCachedPatterns validRegex
          (getCachedPatterns validRegex st0 ps1 v1).2 ps2 v2 =
        getCachedPatterns validRegex st0 ps1 v1) ∧
    (v2 ≠ v1 →
      getCachedPatterns validRegex
          (getCachedPatterns validRegex st0 ps1 v1).2 ps2 v2 =
        (compilePatterns validRegex ps2,
          ⟨some (compilePatterns validRegex ps2), v2⟩)) := by
  obtain ⟨pats, ver⟩ := st0
  obtain ⟨c, hfull⟩ : ∃ c, getCachedPatterns validRegex ⟨pats, ver⟩ ps1 v1 =
      (c, ⟨some c, v1⟩) := by
    by_cases hver : ver = v1
    · subst hver
      cases pats with
      | none => exact ⟨compilePatterns validRegex ps1, by simp [getCachedPatterns]⟩
      | some p => exact ⟨p, by simp [getCachedPatterns]⟩
    · exact ⟨compilePatterns validRegex ps1, by simp [getCachedPatterns, hver]⟩
  constructor <;> intro hv
  · subst hv
    rw [hfull]
    simp [getCachedPatterns]
  · rw [hfull]
    simp [getCachedPatterns, Ne.symm hv]

/-- Witness for the amended C9: both branches evaluated concretely — the
same version 0 with a changed list reuses the compiled set for `["a"]`,
and version 1 recompiles `["b"]`. -/
theorem getCachedPatterns_version_keyed_witness :
    getCachedPatterns (fun _ => true)
        (getCachedPatterns (fun _ => true) initialCache ["a"] 0).2 ["a"] 0 =
      getCachedPatterns (fun _ => true) initialCache ["a"] 0 ∧
    getCachedPatterns (fun _ => true)
        (getCachedPatterns (fun _ => true) initialCache ["a"] 0).2 ["b"] 1 =
      (compilePatterns (fun _ => true) ["b"],
        ⟨some (compilePatterns (fun _ => true) ["b"]), 1⟩) :=
  ⟨(getCachedPatterns_version_keyed (fun _ => true) ["a"] ["a"] 0 0
      initialCache).1 rfl,
   (getCachedPatterns_version_keyed (fun _ => true) ["a"] ["b"] 0 1
      initialCache).2 (by decide)⟩

/-! ## Claims about the retry loop -/

/-- Helper: the user-abort test can never fire on an error whose name is
the plain `Error` (the errors the loop itself constructs for HTTP
statuses and embedded errors). -/
theorem isUserAbort_plain_error (b : Bool) (m : String) :
    isUserAbort b ⟨"Error", m⟩ = false := by
  simp [isUserAbort]

/-- Exhaustion lemma: from any point of the loop, if the external signal
never reads aborted and every remaining attempt classifies as retryable,
the loop walks through every remaining attempt index and finally throws
the break error of the final attempt's classification. -/
theorem runLoop_exhausts (s : Settings) (tr : ℕ → TransportResult)
    (sigTop sigCatch : ℕ → Bool) (rs : ℕ → Option JsError) (be : ℕ → JsError)
    (hsig : ∀ a, a ≤ s.maxRetries → sigTop a = false)
    (hstep : ∀ a, a ≤ s.maxRetries →
      stepAction s (sigCatch a) (tr a) = .retryable (rs a) (be a)) :
    ∀ fuel attempt lastError, attempt + fuel = s.maxRetries + 1 →
      attempt ≤ s.maxRetries →
      runLoop s tr sigTop sigCatch fuel attempt lastError =
        (.thrown (be s.maxRetries), List.range' attempt fuel) := by
  intro fuel
  induction fuel with
  | zero => intro attempt lastError hsum hle; omega
  | succ f ih =>
    intro attempt lastError hsum hle
    have hguard : ¬ s.maxRetries < attempt := by omega
    simp only [runLoop, hguard, if_false, hsig attempt hle,
      Bool.false_eq_true, hstep attempt hle]
    by_cases hlt : attempt < s.maxRetries
    · have hrec := ih (attempt + 1)
        (match rs attempt with | some e => some e | none => lastError)
        (by omega) (by omega)
      simp only [hlt, if_true, hrec, List.range'_succ]
    · have hattempt : attempt = s.maxRetries := by omega
      have hf : f = 0 := by omega
      subst hattempt hf
      simp [List.range']

/-- Claim C1.  With `maxRetries = N` and a transport that returns status
429 on every invocation (and no user abort), the loop invokes the
transport at exactly the attempt indices `0 .. N` and then throws the
rate-limited error built from the final attempt's response. -/
theorem always429_exhausts_budget (s : Settings) (tr : ℕ → TransportResult)
    (sigTop sigCatch : ℕ → Bool) (f : ℕ → Response)
    (hresp : ∀ a, tr a = .resp (f a)) (h429 : ∀ a, (f a).status = 429)
    (hsig : ∀ a, sigTop a = false) :
    runRetryLoop s tr sigTop sigCatch =
      (.thrown (rateLimitedError (f s.maxRetries)),
        List.range (s.maxRetries + 1)) := by
  have hstep : ∀ a, a ≤ s.maxRetries →
      stepAction s (sigCatch a) (tr a) =
        .retryable none (rateLimitedError (f a)) := by
    intro a _
    rw [hresp a]
    simp [stepAction, Response.ok, h429 a]
  rw [runRetryLoop, List.range_eq_range']
  exact runLoop_exhausts s tr sigTop sigCatch (fun _ => none)
    (fun a => rateLimitedError (f a)) (fun a _ => hsig a) hstep
    (s.maxRetries + 1) 0 none (by omega) (by omega)

/-- A 429 response. -/
def resp429 : Response := ⟨429, "Too Many Requests", none, false, .absent⟩

/-- A 500 response. -/
def resp500 : Response := ⟨500, "Internal Server Error", none, false, .absent⟩

/-- A 304 response (not ok, outside every handled status branch). -/
def resp304 : Response := ⟨304, "Not Modified", none, false, .absent⟩

/-- A 200 JSON response whose body is `{"error":"insufficient_quota"}`. -/
def respQuota : Response := ⟨200, "OK", none, true, .str "insufficient_quota"⟩

/-- Settings with `maxRetries = 2` (and the error-field check enabled). -/
def threeAttemptSettings : Settings :=
  ⟨true, 2, 5000, 5000, 0, true, 60000, true, [], none, 0⟩

/-- Witness for C1: with `maxRetries = 2` and a constant-429 transport
the loop calls the transport at attempts 0, 1, 2 and throws the
rate-limited error. -/
theorem always429_exhausts_budget_witness :
    runRetryLoop threeAttemptSettings (fun _ => .resp resp429)
        (fun _ => false) (fun _ => false) =
      (.thrown (rateLimitedError resp429), [0, 1, 2]) := by
  have h := always429_exhausts_budget threeAttemptSettings
    (fun _ => .resp resp429) (fun _ => false) (fun _ => false)
    (fun _ => resp429) (fun _ => rfl) (fun _ => rfl) (fun _ => rfl)
  exact h.trans (by rfl)

/-- Claim C8.  When the signal never aborts and every attempt up to the
bound classifies as retryable, the error surfaced to the caller is
exactly the break error produced by the final attempt's classification —
not a synthetic exhaustion error. -/
theorem exhaustion_surfaces_last_cause (s : Settings)
    (tr : ℕ → TransportResult) (sigTop sigCatch : ℕ → Bool)
    (rs : ℕ → Option JsError) (be : ℕ → JsError)
    (hsig : ∀ a, a ≤ s.maxRetries → sigTop a = false)
    (hstep : ∀ a, a ≤ s.maxRetries →
      stepAction s (sigCatch a) (tr a) = .retryable (rs a) (be a)) :
    (runRetryLoop s tr sigTop sigCatch).1 = .thrown (be s.maxRetries) := by
  rw [runRetryLoop, runLoop_exhausts s tr sigTop sigCatch rs be hsig hstep
    (s.maxRetries + 1) 0 none (by omega) (by omega)]

/-- A transport that rate-limits on attempt 0, serves a 500 on attempt 1
and throws a network error on attempt 2. -/
def mixedTransport : ℕ → TransportResult := fun a =>
  if a = 0 then .resp resp429
  else if a = 1 then .resp resp500
  else .thrown ⟨"TypeError", "Failed to fetch"⟩

/-- The per-attempt break errors of `mixedTransport`. -/
def mixedBreakErr : ℕ → JsError := fun a =>
  if a = 0 then rateLimitedError resp429
  else if a = 1 then serverError resp500
  else ⟨"TypeError", "Failed to fetch"⟩

/-- The per-attempt `lastError` updates of `mixedTransport`. -/
def mixedRetrySet : ℕ → Option JsError := fun a =>
  if a ≤ 1 then none else some ⟨"TypeError", "Failed to fetch"⟩

/-- Witness for C8: with `maxRetries = 2` and a transport failing with a
429, then a 500, then a thrown network error, the surfaced error is the
final attempt's network error, verbatim. -/
theorem exhaustion_surfaces_last_cause_witness :
    (runRetryLoop threeAttemptSettings mixedTransport (fun _ => false)
        (fun _ => false)).1 = .thrown ⟨"TypeError", "Failed to fetch"⟩ := by
  have h := exhaustion_surfaces_last_cause threeAttemptSettings
    mixedTransport (fun _ => false) (fun _ => false) mixedRetrySet
    mixedBreakErr (fun _ _ => rfl)
    (by
      intro a ha
      have ha2 : a ≤ 2 := ha
      interval_cases a <;> rfl)
  exact h.trans (by rfl)

/-- Claim C10.  A transport that always returns a response that is neither
ok nor in the 429 / ≥500 / [400,500) branches (in particular any status
in [300,400)) never has that response returned to the caller: each such
response is converted to a thrown `HTTP <status>` error, treated as
retryable by the catch block, so the loop runs all `maxRetries + 1`
attempts and surfaces the `HTTP <status>` error of the final attempt. -/
theorem unhandledStatus_retried_and_thrown (s : Settings)
    (tr : ℕ → TransportResult) (sigTop sigCatch : ℕ → Bool)
    (f : ℕ → Response)
    (hresp : ∀ a, tr a = .resp (f a))
    (hnotok : ∀ a, (f a).ok = false)
    (hlt : ∀ a, (f a).status < 400)
    (hsig : ∀ a, sigTop a = false) :
    runRetryLoop s tr sigTop sigCatch =
      (.thrown (httpError (f s.maxRetries)),
        List.range (s.maxRetries + 1)) := by
  have hstep : ∀ a, a ≤ s.maxRetries →
      stepAction s (sigCatch a) (tr a) =
        .retryable (some (httpError (f a))) (httpError (f a)) := by
    intro a _
    rw [hresp a]
    have h1 : ¬ (f a).status = 429 := by have := hlt a; omega
    have h2 : ¬ 500 ≤ (f a).status := by have := hlt a; omega
    have h3 : ¬ 400 ≤ (f a).status := by have := hlt a; omega
    simp [stepAction, hnotok a, h1, h2, h3, catchClassify, httpError,
      isUserAbort_plain_error]
  rw [runRetryLoop, List.range_eq_range']
  exact runLoop_exhausts s tr sigTop sigCatch
    (fun a => some (httpError (f a))) (fun a => httpError (f a))
    (fun a _ => hsig a) hstep (s.maxRetries + 1) 0 none (by omega) (by omega)

/-- Witness for C10: a constant-304 transport with `maxRetries = 2` is
retried at attempts 0, 1, 2 and ends in a thrown `HTTP 304` error. -/
theorem unhandledStatus_retried_and_thrown_witness :
    runRetryLoop threeAttemptSettings (fun _ => .resp resp304)
        (fun _ => false) (fun _ => false) =
      (.thrown (httpError resp304), [0, 1, 2]) := by
  have h := unhandledStatus_retried_and_thrown threeAttemptSettings
    (fun _ => .resp resp304) (fun _ => false) (fun _ => false)
    (fun _ => resp304) (fun _ => rfl) (fun _ => rfl)
    (fun _ => (by decide : resp304.status < 400)) (fun _ => rfl)
  exact h.trans (by rfl)

/-- Claim C5.  With `checkResponseErrorField` enabled, a transport that
always returns a 200 JSON response whose body's `error` field yields an
error message longer than 2 characters (a string longer than 2
characters such as `"insufficient_quota"`, or an object with such a
`message`) is classified as a retryable embedded-error failure, never
returned to the caller: the loop runs all `maxRetries + 1` attempts and
surfaces the embedded error of the final attempt. -/
theorem embeddedError_overrides_success (s : Settings)
    (tr : ℕ → TransportResult) (sigTop sigCatch : ℕ → Bool)
    (f : ℕ → Response) (m : ℕ → String)
    (hchk : s.checkResponseErrorField = true)
    (hresp : ∀ a, tr a = .resp (f a))
    (hst : ∀ a, (f a).status = 200)
    (hjson : ∀ a, (f a).contentTypeJson = true)
    (hmsg : ∀ a, errorMessageOf (f a).errorField = some (m a))
    (hlen : ∀ a, 2 < (m a).length)
    (hsig : ∀ a, sigTop a = false) :
    responseErrorMsg s (f 0) = some (m 0) ∧
    runRetryLoop s tr sigTop sigCatch =
      (.thrown (embeddedError (m s.maxRetries)),
        List.range (s.maxRetries + 1)) := by
  have hrem : ∀ a, responseErrorMsg s (f a) = some (m a) := by
    intro a
    simp [responseErrorMsg, hchk, hjson a, hmsg a, hlen a]
  have hstep : ∀ a, a ≤ s.maxRetries →
      stepAction s (sigCatch a) (tr a) =
        .retryable (some (embeddedError (m a))) (embeddedError (m a)) := by
    intro a _
    rw [hresp a]
    simp [stepAction, Response.ok, hst a, hrem a]
  refine ⟨hrem 0, ?_⟩
  rw [runRetryLoop, List.range_eq_range']
  exact runLoop_exhausts s tr sigTop sigCatch
    (fun a => some (embeddedError (m a))) (fun a => embeddedError (m a))
    (fun a _ => hsig a) hstep (s.maxRetries + 1) 0 none (by omega) (by omega)

/-- Witness for C5: the 200 response with body
`{"error":"insufficient_quota"}` under `maxRetries = 2` is never
returned; all three attempts run and the embedded error is thrown. -/
theorem embeddedError_overrides_success_witness :
    responseErrorMsg threeAttemptSettings respQuota =
      some "insufficient_quota" ∧
    runRetryLoop threeAttemptSettings (fun _ => .resp respQuota)
        (fun _ => false) (fun _ => false) =
      (.thrown (embeddedError "insufficient_quota"), [0, 1, 2]) := by
  have h := embeddedError_overrides_success threeAttemptSettings
    (fun _ => .resp respQuota) (fun _ => false) (fun _ => false)
    (fun _ => respQuota) (fun _ => "insufficient_quota") rfl
    (fun _ => rfl) (fun _ => rfl) (fun _ => rfl) (fun _ => rfl)
    (fun _ => (by decide : 2 < ("insufficient_quota").length)) (fun _ => rfl)
  exact ⟨h.1, h.2.trans (by rfl)⟩

/-! ## C2: external cancellation -/

/-- Observation model of the external signal over one logical call: the
signal is observed at the wrapper pre-check (index 0, line 194), at the
loop top of attempt `a` (index `2a+1`, lines 220/232) and in the catch
block of attempt `a` (index `2a+2`, line 374).  A signal that fires at
observation index `t` reads aborted at every observation at index ≥ `t`;
`sigTopAt t` is its loop-top sampling. -/
def sigTopAt (t : ℕ) : ℕ → Bool := fun a => decide (t ≤ 2 * a + 1)

/-- Catch-block sampling of a signal that fires at observation index
`t` (see `sigTopAt`). -/
def sigCatchAt (t : ℕ) : ℕ → Bool := fun a => decide (t ≤ 2 * a + 2)

/-- The abort reason stamped by the external-abort listener (line 209):
`currentController.abort(new Error('User aborted'))`.  Per the fetch
standard, an in-flight fetch aborted this way rejects with this very
value — a plain error whose name is `Error`, not `AbortError`. -/
def userAbortReasonError : JsError := ⟨"Error", "User aborted"⟩

/-- Abort lemma for the loop, under the faithful mid-attempt abort
behaviour: if the external signal fires at observation index `t` within
the call, every attempt that completes before the fire is retryable, and
the attempt in flight when the signal fires — if any — rejects with the
stamped abort reason `userAbortReasonError` (line 209 plus the fetch
standard), then from any pre-fire point the loop invokes the transport
only at attempts whose loop-top observation precedes the fire and ends
in a thrown error: the loop-top `AbortError` in every case except a fire
during the final attempt, where the catch (line 374) fails to recognise
the `Error`-named rejection as a user abort, the bound is reached, and
the plain abort reason is surfaced verbatim. -/
theorem runLoop_abort (s : Settings) (tr : ℕ → TransportResult) (t : ℕ)
    (htle : t ≤ 2 * s.maxRetries + 2)
    (hpre : ∀ a, 2 * a + 2 < t → ∃ rs be,
      stepAction s (sigCatchAt t a) (tr a) = .retryable rs be)
    (hfire : ∀ a, t = 2 * a + 2 → tr a = .thrown userAbortReasonError) :
    ∀ fuel attempt lastError, attempt + fuel = s.maxRetries + 1 →
      attempt ≤ s.maxRetries → 2 * attempt ≤ t →
      (runLoop s tr (sigTopAt t) (sigCatchAt t) fuel attempt
          lastError).1 = .thrown (if t = 2 * s.maxRetries + 2 then
            userAbortReasonError else loopAbortError) ∧
      (∀ a ∈ (runLoop s tr (sigTopAt t) (sigCatchAt t) fuel attempt
          lastError).2, 2 * a + 2 ≤ t) := by
  intro fuel
  induction fuel with
  | zero => intro attempt lastError hsum hle hinv; omega
  | succ f ih =>
    intro attempt lastError hsum hle hinv
    have hguard : ¬ s.maxRetries < attempt := by omega
    by_cases htop : t ≤ 2 * attempt + 1
    · have hsig : sigTopAt t attempt = true := by
        simp [sigTopAt, htop]
      have hne : ¬ (t = 2 * s.maxRetries + 2) := by omega
      simp only [runLoop, hguard, if_false, hsig, if_true, hne]
      exact ⟨by simp, by simp⟩
    · have hsig : sigTopAt t attempt = false := by
        simp only [sigTopAt, decide_eq_false_iff_not]
        omega
      by_cases hmid : t = 2 * attempt + 2
      · have hstep : stepAction s (sigCatchAt t attempt) (tr attempt) =
            .retryable (some userAbortReasonError) userAbortReasonError := by
          rw [hfire attempt hmid]
          simp [stepAction, catchClassify, userAbortReasonError,
            isUserAbort_plain_error]
        by_cases hlt : attempt < s.maxRetries
        · simp only [runLoop, hguard, if_false, hsig, Bool.false_eq_true,
            hstep, hlt, if_true]
          obtain ⟨hout, hcalls⟩ := ih (attempt + 1)
            (some userAbortReasonError) (by omega) (by omega) (by omega)
          refine ⟨hout, ?_⟩
          intro a ha
          rcases List.mem_cons.mp ha with h | h
          · omega
          · exact hcalls a h
        · have hT : t = 2 * s.maxRetries + 2 := by omega
          simp only [runLoop, hguard, if_false, hsig, Bool.false_eq_true,
            hstep, hlt, if_false]
          refine ⟨?_, ?_⟩
          · rw [if_pos hT]
          · intro a ha
            simp at ha
            omega
      · have hlt2 : 2 * attempt + 2 < t := by omega
        obtain ⟨rs, be, hstep⟩ := hpre attempt hlt2
        have hltmax : attempt < s.maxRetries := by omega
        cases rs with
        | none =>
          simp only [runLoop, hguard, if_false, hsig, Bool.false_eq_true,
            hstep, hltmax, if_true]
          obtain ⟨hout, hcalls⟩ := ih (attempt + 1) lastError
            (by omega) (by omega) (by omega)
          refine ⟨hout, ?_⟩
          intro a ha
          rcases List.mem_cons.mp ha with h | h
          · omega
          · exact hcalls a h
        | some e0 =>
          simp only [runLoop, hguard, if_false, hsig, Bool.false_eq_true,
            hstep, hltmax, if_true]
          obtain ⟨hout, hcalls⟩ := ih (attempt + 1) (some e0)
            (by omega) (by omega) (by omega)
          refine ⟨hout, ?_⟩
          intro a ha
          rcases List.mem_cons.mp ha with h | h
          · omega
          · exact hcalls a h

/-- Settings with `maxRetries = 0` (a single attempt). -/
def oneAttemptSettings : Settings :=
  ⟨true, 0, 5000, 5000, 0, true, 60000, true, [], none, 0⟩

/-- Claim C2, counterexample.  The claim states that a signal firing at
any point of the call yields exactly one terminal user-abort outcome, an
`AbortError` propagated to the caller, with no retry.  The abort
listener (line 209) aborts the internal controller with
`new Error('User aborted')`, so per the fetch standard the in-flight
fetch rejects with that plain `Error`-named reason; the catch only
recognises user aborts under `err.name === 'AbortError'` (line 373), so
when the signal fires during the final attempt (`maxRetries = 0`, fire
at observation index 2) the loop reaches the attempt bound and surfaces
the plain `Error` verbatim — not an `AbortError`. -/
theorem externalAbort_plain_error_surfaced :
    createRetryableFetch (fun _ => true) (fun _ _ => true)
        oneAttemptSettings initialCache "https://host/a"
        (decide ((2 : ℕ) = 0)) (.resp resp429)
        (fun _ => .thrown userAbortReasonError) (sigTopAt 2)
        (sigCatchAt 2) =
      ⟨.thrown userAbortReasonError, [0], false⟩ ∧
    userAbortReasonError.name ≠ "AbortError" :=
  ⟨rfl, by decide⟩

/-- Claim C2, amended.  If the external signal fires at observation
index `t` within the logical call — before the first attempt (`t = 0`,
where the wrapper bypasses and the delegated pre-aborted fetch rejects
with an `AbortError` by the fetch contract), at a loop-top check, or
mid-attempt (where, when the abort takes effect, the in-flight fetch
rejects with the stamped reason `new Error('User aborted')` of line
209) — and every attempt completed before the fire was retryable, then
the retry loop never invokes the transport at an attempt whose loop-top
observation follows the fire, the wrapper bypasses (a single delegated
call) only in the pre-aborted case, and the call ends in a single
thrown error.  That error is named `AbortError` in every case except
one: a fire during the final attempt surfaces the plain `Error`-named
abort reason verbatim, because the catch of line 373 does not recognise
it as a user abort. -/
theorem externalAbort_terminates_faithful (validRegex : String → Bool)
    (rmatch : String → String → Bool) (s : Settings) (st : CacheState)
    (url : String) (passthrough : TransportResult)
    (tr : ℕ → TransportResult) (t : ℕ)
    (hen : s.enabled = true)
    (hfil : (shouldApplyRetryLogic validRegex rmatch url s st).1 = true)
    (htle : t ≤ 2 * s.maxRetries + 2)
    (hpre : ∀ a, 2 * a + 2 < t → ∃ rs be,
      stepAction s (sigCatchAt t a) (tr a) = .retryable rs be)
    (hfire : ∀ a, t = 2 * a + 2 → tr a = .thrown userAbortReasonError)
    (hbypass : t = 0 → ∃ e, passthrough = .thrown e ∧ e.name = "AbortError") :
    (∃ e, (createRetryableFetch validRegex rmatch s st url (decide (t = 0))
        passthrough tr (sigTopAt t) (sigCatchAt t)).outcome = .thrown e ∧
      (if t = 2 * s.maxRetries + 2 then e = userAbortReasonError
        else e.name = "AbortError")) ∧
    (∀ a ∈ (createRetryableFetch validRegex rmatch s st url (decide (t = 0))
        passthrough tr (sigTopAt t) (sigCatchAt t)).loopCalls,
      2 * a + 2 ≤ t) ∧
    ((createRetryableFetch validRegex rmatch s st url (decide (t = 0))
        passthrough tr (sigTopAt t) (sigCatchAt t)).bypassed = true →
      t = 0) := by
  by_cases ht0 : t = 0
  · obtain ⟨e, hpe, hname⟩ := hbypass ht0
    have hred : createRetryableFetch validRegex rmatch s st url
        (decide (t = 0)) passthrough tr (sigTopAt t) (sigCatchAt t) =
        ⟨outcomeOf passthrough, [], true⟩ := by
      simp [createRetryableFetch, hen, hfil, ht0]
    rw [hred, hpe]
    refine ⟨⟨e, rfl, ?_⟩, by simp, fun _ => ht0⟩
    rw [if_neg (by omega)]
    exact hname
  · have hred : createRetryableFetch validRegex rmatch s st url
        (decide (t = 0)) passthrough tr (sigTopAt t) (sigCatchAt t) =
        ⟨(runRetryLoop s tr (sigTopAt t) (sigCatchAt t)).1,
          (runRetryLoop s tr (sigTopAt t) (sigCatchAt t)).2, false⟩ := by
      simp [createRetryableFetch, hen, hfil, ht0]
    obtain ⟨hout, hcalls⟩ := runLoop_abort s tr t htle hpre hfire
      (s.maxRetries + 1) 0 none (by omega) (by omega) (by omega)
    rw [hred]
    refine ⟨⟨_, hout, ?_⟩, hcalls, by simp⟩
    by_cases hT : t = 2 * s.maxRetries + 2
    · rw [if_pos hT, if_pos hT]
    · rw [if_neg hT, if_neg hT]
      rfl

/-- Settings with `maxRetries = 1`. -/
def twoAttemptSettings : Settings :=
  ⟨true, 1, 5000, 5000, 0, true, 60000, true, [], none, 0⟩

/-- A transport that rate-limits on attempt 0 and, aborted mid-attempt
1, rejects with the abort reason stamped at line 209. -/
def reasonAbortTransport : ℕ → TransportResult := fun a =>
  if a = 0 then .resp resp429 else .thrown userAbortReasonError

/-- Witness for the amended C2: with `maxRetries = 1`, a 429 on attempt
0 and the signal firing during the final attempt 1 (observation index
4), the transport ran only at attempts observed before the fire, nothing
was bypassed, and — the fire being on the final attempt — the thrown
error is the plain stamped abort reason. -/
theorem externalAbort_terminates_faithful_witness :
    (∃ e, (createRetryableFetch (fun _ => true) (fun _ _ => true)
        twoAttemptSettings initialCache "https://host/a"
        (decide ((4 : ℕ) = 0)) (.resp resp429) reasonAbortTransport
        (sigTopAt 4) (sigCatchAt 4)).outcome = .thrown e ∧
      (if (4 : ℕ) = 2 * twoAttemptSettings.maxRetries + 2 then
        e = userAbortReasonError else e.name = "AbortError")) ∧
    (∀ a ∈ (createRetryableFetch (fun _ => true) (fun _ _ => true)
        twoAttemptSettings initialCache "https://host/a"
        (decide ((4 : ℕ) = 0)) (.resp resp429) reasonAbortTransport
        (sigTopAt 4) (sigCatchAt 4)).loopCalls, 2 * a + 2 ≤ 4) ∧
    ((createRetryableFetch (fun _ => true) (fun _ _ => true)
        twoAttemptSettings initialCache "https://host/a"
        (decide ((4 : ℕ) = 0)) (.resp resp429) reasonAbortTransport
        (sigTopAt 4) (sigCatchAt 4)).bypassed = true → (4 : ℕ) = 0) :=
  externalAbort_terminates_faithful (fun _ => true) (fun _ _ => true)
    twoAttemptSettings initialCache "https://host/a" (.resp resp429)
    reasonAbortTransport 4 rfl rfl (by decide)
    (by
      intro a ha
      have ha0 : a = 0 := by omega
      subst ha0
      exact ⟨none, rateLimitedError resp429, rfl⟩)
    (by
      intro a ha
      have ha1 : a = 1 := by omega
      subst ha1
      rfl)
    (by intro h; exact absurd h (by decide))
